import Mathlib

/-!
Shallow embedding of the `tcpping` utility (netutil/tcpping.py): the
exception-type model, the `suppress` context manager, the `statistics`
function, the per-probe `tcp_ping` attempt, the `do_loop` probe loop,
the `footer` reporter and the `main` orchestration, together with
theorems checking the specification's claims against them.

Numeric quantities (wall-clock durations, latencies) are modelled as
exact rationals, so a numeric result coincides with the program only
where the float computation is exact; fallible Python code is modelled
with `Except`, the error carrying the type of the raised exception.
The source is Python 2 (`xrange`), which fixes the exception hierarchy
used for the `except` clause dispatch.
-/

namespace Tcpping

instance {ε α : Type} [DecidableEq ε] [DecidableEq α] :
    DecidableEq (Except ε α) := fun a b =>
  match a, b with
  | .error e, .error f =>
    if h : e = f then .isTrue (by rw [h]) else
      .isFalse (by intro hc; cases hc; exact h rfl)
  | .ok x, .ok y =>
    if h : x = y then .isTrue (by rw [h]) else
      .isFalse (by intro hc; cases hc; exact h rfl)
  | .error _, .ok _ => .isFalse (by intro hc; cases hc)
  | .ok _, .error _ => .isFalse (by intro hc; cases hc)

/-- Model of the Python exception classes appearing in tcpping:
`Exception` itself, `OSError`, `IOError`, `socket.error`,
`socket.timeout`, `ValueError`, `TypeError`, `ZeroDivisionError`,
`socket.gaierror` and `KeyboardInterrupt`. -/
inductive ExcType where
  | exc
  | osError
  | ioError
  | socketError
  | socketTimeout
  | valueError
  | typeError
  | zeroDivisionError
  | gaierror
  | keyboardInterrupt
deriving DecidableEq

/-- Python `issubclass`, restricted to the modelled exception classes,
under the Python 2 hierarchy of this source (`xrange` at line 192):
every class except `KeyboardInterrupt` derives `Exception`;
`socket.error` derives `IOError` (it was merged into `OSError` only in
Python 3.3, so here it does NOT derive `OSError`); `socket.timeout` and
`socket.gaierror` derive `socket.error`; otherwise only the reflexive
cases hold. -/
def isSubclassOf : ExcType → ExcType → Bool
  | t, .exc => t != .keyboardInterrupt
  | .socketError, .ioError => true
  | .socketTimeout, .ioError => true
  | .gaierror, .ioError => true
  | .socketTimeout, .socketError => true
  | .gaierror, .socketError => true
  | t, u => t == u

/-- `suppress.__exit__(typ, val, tb)` suppresses the exception (returns
`True`) iff `typ in self._exctypes`: a membership test of the exact raised
type against the stored tuple, not an `issubclass` test. -/
def suppressExit (exctypes : List ExcType) (typ : ExcType) : Bool :=
  decide (typ ∈ exctypes)

/-- The inner `mean(numbers)` of `statistics`:
`float(sum(numbers)) / max(len(numbers), 1)`, in exact rational
arithmetic (it agrees with the program only where the float sum and
division are exact). -/
def mean (numbers : List ℚ) : ℚ :=
  numbers.sum / ((max numbers.length 1 : ℕ) : ℚ)

/-- `statistics(numbers)`: returns the tuple
`(min(numbers), max(numbers), avg, mean_deviation)` where
`avg = mean(numbers)` and `mean_deviation` is the mean of the absolute
deviations from `avg`, in exact rational arithmetic (it agrees with the
program only where the float computation is exact).  On the empty list
Python's `min()` raises `ValueError` (`min() arg is an empty sequence`),
modelled as an error. -/
def statistics (numbers : List ℚ) : Except ExcType (ℚ × ℚ × ℚ × ℚ) :=
  let avg := mean numbers
  let mdev := mean (numbers.map fun el => |el - avg|)
  match numbers with
  | [] => .error .valueError
  | x :: xs => .ok (xs.foldl min x, xs.foldl max x, avg, mdev)

/-- Outcome of the `sock.connect` call inside `tcp_ping`: either it
succeeds, or it raises an exception of some type, with `elapsed` the value
of `wall_time() - start` at the moment control reaches the handler. -/
inductive ConnectOutcome where
  | success (elapsed : ℚ)
  | raised (t : ExcType) (elapsed : ℚ)
deriving DecidableEq

/-- The value `tcp_ping` returns: every branch but one returns a pair
`(bool, timespan)`; the `except Exception` branch returns a bare bool. -/
inductive PingReturn where
  | pair (isok : Bool) (timespan : ℚ)
  | bare (isok : Bool)
deriving DecidableEq

/-- Behaviour of the teardown calls in `tcp_ping`'s `finally` block:
`sock.shutdown` and `sock.close` each either return or raise an exception
of the given type. -/
structure Teardown where
  shutdownErr : Option ExcType
  closeErr : Option ExcType
deriving DecidableEq

/-- One step of the `finally` block: the call is wrapped in
`with suppress(Exception)`, so a raised exception escapes unless
`suppressExit [Exception]` suppresses it. -/
def suppressedStep (err : Option ExcType) : Option ExcType :=
  match err with
  | some t => if suppressExit [.exc] t then none else some t
  | none => none

/-- The whole `finally` block: if the `shutdown` step's exception escapes,
the `close` step is never reached; otherwise the `close` step runs.
Returns the exception type escaping the block, if any. -/
def teardownEscape (td : Teardown) : Option ExcType :=
  match suppressedStep td.shutdownErr with
  | some t => some t
  | none => suppressedStep td.closeErr

/-- Dispatch of the `try/except` clauses of `tcp_ping` over the type of the
exception raised by `connect` (Python tests each clause with `isinstance`):
`except socket.timeout` returns `(False, elapsed)`;
`except OSError` returns `(False, elapsed)` — under Python 2 this clause
does NOT catch `socket.error`, so refused/unreachable connections fall
through to the next clause;
`except Exception` returns the bare `False`;
anything else (e.g. `KeyboardInterrupt`) propagates;
the `else` clause returns `(True, elapsed)`. -/
def connectDispatch : ConnectOutcome → Except ExcType PingReturn
  | .success e => .ok (.pair true e)
  | .raised t e =>
    if isSubclassOf t .socketTimeout then .ok (.pair false e)
    else if isSubclassOf t .osError then .ok (.pair false e)
    else if isSubclassOf t .exc then .ok (.bare false)
    else .error t

/-- `tcp_ping(host, port)`: the `try/except/else` result, then the
`finally` block; an exception escaping the `finally` block replaces
whatever the function was about to return or raise. -/
def tcp_ping (c : ConnectOutcome) (td : Teardown) : Except ExcType PingReturn :=
  match teardownEscape td with
  | some t => .error t
  | none => connectDispatch c

/-- The unpacking `isok, timespan = tcp_ping(ipaddr, port)` in `do_loop`:
unpacking a bare bool raises `TypeError`. -/
def unpack2 : PingReturn → Except ExcType (Bool × ℚ)
  | .pair b t => .ok (b, t)
  | .bare _ => .error .typeError

/-- Environment of one probe attempt: what `connect` does and what the
teardown calls do. -/
structure Attempt where
  connect : ConnectOutcome
  teardown : Teardown
deriving DecidableEq

/-- The body of `do_loop`'s `for idx in xrange(count)` loop, recursing on
the number of remaining iterations.  `attempts i` is the environment of
attempt `i`; `interruptAt = some k` models a `KeyboardInterrupt` delivered
while attempt `k` is in flight (or during the preceding sleep), caught by
`do_loop`'s `except KeyboardInterrupt`, which returns the data accumulated
so far.  A `KeyboardInterrupt` escaping `tcp_ping` itself is caught the
same way; any other exception propagates out of `do_loop`. -/
def doLoopGo (attempts : Nat → Attempt) (interruptAt : Option Nat) :
    Nat → Nat → Nat → Nat → List ℚ → Except ExcType (Nat × Nat × List ℚ)
  | 0, _, passed, failed, times => .ok (passed, failed, times)
  | remaining + 1, idx, passed, failed, times =>
    if interruptAt = some idx then .ok (passed, failed, times)
    else
      match tcp_ping (attempts idx).connect (attempts idx).teardown with
      | .error t =>
        if t = .keyboardInterrupt then .ok (passed, failed, times)
        else .error t
      | .ok ret =>
        match unpack2 ret with
        | .error t => .error t
        | .ok pr =>
          doLoopGo attempts interruptAt remaining (idx + 1)
            (passed + if pr.1 then 1 else 0)
            (failed + if pr.1 then 0 else 1)
            (if pr.1 then times ++ [pr.2] else times)

/-- `do_loop(args, ipaddr)`: returns `(passed, failed, times_list)`, or the
exception that escaped the loop. -/
def do_loop (attempts : Nat → Attempt) (interruptAt : Option Nat)
    (count : Nat) : Except ExcType (Nat × Nat × List ℚ) :=
  doLoopGo attempts interruptAt count 0 0 0 []

/-- Python 2's `int(round(x))` for the rationals arising here: `round`
rounds half away from zero, and `int` of that integral float is exact. -/
def pyRound (q : ℚ) : Int :=
  if 0 ≤ q then ⌊q + 1/2⌋ else ⌈q - 1/2⌉

/-- The values interpolated into `FOOTER_TMPL` by `footer`. -/
structure FooterData where
  total : Nat
  passed : Nat
  percent : Int
  totaltime : Int
  min : ℚ
  max : ℚ
  avg : ℚ
  mdev : ℚ
deriving DecidableEq

/-- `footer(passed, failed, times_list, totaltime, hostname, ipaddr)`:
`total = passed + failed`; `percent = int(round(100.0 * failed / total))`,
where the division raises `ZeroDivisionError` when `total == 0` (there is
no guard in the source); then the total time in ms and the four statistics
scaled to ms.  An exception from any step escapes `footer`. -/
def footer (passed failed : Nat) (times : List ℚ) (totaltime : ℚ) :
    Except ExcType FooterData :=
  if passed + failed = 0 then .error .zeroDivisionError
  else
    match statistics times with
    | .error t => .error t
    | .ok q =>
      .ok ⟨passed + failed, passed,
        pyRound (100 * (failed : ℚ) / ((passed + failed : ℕ) : ℚ)),
        pyRound (totaltime * 1000), q.1 * 1000, q.2.1 * 1000,
        q.2.2.1 * 1000, q.2.2.2 * 1000⟩

/-- Environment for `get_hostname_ipaddr`: whether `args.host` is a valid
IPv4 literal, the `-n` flag, and the outcomes of the two DNS calls
(`socket.gethostbyaddr`, raising on failure, and `socket.gethostbyname`,
raising `socket.gaierror` when the lookup yields nothing). -/
structure ResolveEnv where
  hostIsIPv4 : Bool
  numericOnly : Bool
  reverseLookup : Except ExcType String
  forwardLookup : Except ExcType String

/-- `get_hostname_ipaddr(args)`: returns `(hostname, ipaddr)`, propagating
any exception raised by the DNS calls. -/
def get_hostname_ipaddr (host : String) (env : ResolveEnv) :
    Except ExcType (String × String) :=
  if env.hostIsIPv4 then
    if env.numericOnly then .ok (host, host)
    else
      match env.reverseLookup with
      | .error t => .error t
      | .ok name => .ok (name, host)
  else
    match env.forwardLookup with
    | .error t => .error t
    | .ok ip => .ok (host, ip)

/-- `main(argv)` after argument parsing: `print(header(args))` resolves the
host (an exception here escapes `main` uncaught — only the `do_loop` call
sits inside the `try`); `get_hostname_ipaddr` is called again; then
`do_loop` runs, `except Exception` mapping any `Exception`-derived escape
to return code `9`; finally `footer` is evaluated outside any handler, so
an exception there escapes `main` uncaught.  Normal completion returns
`0`. -/
def main (host : String) (env : ResolveEnv) (attempts : Nat → Attempt)
    (interruptAt : Option Nat) (count : Nat) (totalWall : ℚ) :
    Except ExcType Int :=
  match get_hostname_ipaddr host env with
  | .error t => .error t
  | .ok _ =>
    match get_hostname_ipaddr host env with
    | .error t => .error t
    | .ok _ =>
      match do_loop attempts interruptAt count with
      | .error t => if isSubclassOf t .exc then .ok 9 else .error t
      | .ok (passed, failed, times) =>
        match footer passed failed times totalWall with
        | .error t => .error t
        | .ok _ => .ok 0

/-- Claim C1: the spec requires `statistics` of the empty latency list to
return all four outputs as 0 without raising.  The code instead raises
`ValueError` from `min()` on the empty sequence — even though the inner
`mean` is explicitly guarded with `max(len(numbers), 1)`, showing the
empty case was intended to work. -/
theorem C1_statistics_empty_raises :
    statistics [] = Except.error ExcType.valueError := rfl

/-- Claim C8: `statistics [3, 6, 6, 7, 8, 11, 15, 16]` returns
min 3, max 16, mean 9 and mean absolute deviation 3.75. -/
theorem C8_statistics_worked_example :
    statistics [3, 6, 6, 7, 8, 11, 15, 16] = .ok (3, 16, 9, 3.75) := by
  simp only [statistics, mean]
  norm_num [List.foldl]

/-- Claim C2: an unexpected (non-timeout, non-`OSError`) exception during
`connect` makes `tcp_ping` return the bare bool `False` — with no elapsed
component — and `do_loop`'s tuple unpacking of that bool then raises
`TypeError`, so the loop aborts instead of continuing with the next
attempt. -/
theorem C2_unexpected_error_returns_bare_false_and_kills_loop :
    tcp_ping (.raised .valueError 1) ⟨none, none⟩ = .ok (.bare false) ∧
    do_loop (fun _ => ⟨.raised .valueError 1, ⟨none, none⟩⟩) none 3 =
      .error .typeError :=
  ⟨rfl, rfl⟩

/-- Claim C3: a teardown error after a successful probe is supposed to be
swallowed, but `suppress(Exception)` tests the exact raised type against
the tuple, so an `OSError` raised by `sock.shutdown` escapes the `finally`
block, replaces the successful return of `tcp_ping`, and propagates out of
`do_loop` (the successful probe is never counted). -/
theorem C3_teardown_error_escapes :
    tcp_ping (.success 1) ⟨some .osError, none⟩ = .error .osError ∧
    suppressExit [ExcType.exc] .osError = false ∧
    do_loop (fun _ => ⟨.success 1, ⟨some .osError, none⟩⟩) none 3 =
      .error .osError :=
  ⟨rfl, rfl, rfl⟩

/-- Claim C10: `suppress` suppresses an exception iff its exact type is a
member of the stored tuple; an exception whose type is a strict subclass
of a listed type is not suppressed. -/
theorem C10_suppress_is_exact_type_membership :
    (∀ (exctypes : List ExcType) (typ : ExcType),
      suppressExit exctypes typ = true ↔ typ ∈ exctypes) ∧
    (∀ (t typ : ExcType), isSubclassOf typ t = true → typ ≠ t →
      suppressExit [t] typ = false) := by
  refine ⟨fun exctypes typ => ?_, fun t typ _ hne => ?_⟩
  · simp [suppressExit]
  · simp [suppressExit, hne]

/-- Instantiation of the claim-C10 theorem: `socket.error` is a strict
subclass of `Exception`, and `suppress(Exception)` does not suppress it. -/
theorem C10_suppress_witness :
    isSubclassOf .socketError .exc = true ∧
    ExcType.socketError ≠ ExcType.exc ∧
    suppressExit [ExcType.exc] .socketError = false :=
  ⟨rfl, by decide,
    C10_suppress_is_exact_type_membership.2 .exc .socketError rfl (by decide)⟩

lemma doLoopGo_ok_spec (A : Nat → Attempt) (intr : Option Nat) :
    ∀ (remaining idx passed failed : Nat) (ts : List ℚ) (p f : Nat)
      (ts' : List ℚ),
      doLoopGo A intr remaining idx passed failed ts = .ok (p, f, ts') →
      ts.length = passed →
      ts'.length = p ∧ p + f ≤ passed + failed + remaining ∧
        ((intr = none ∧ ∀ i, tcp_ping (A i).connect (A i).teardown ≠
            Except.error .keyboardInterrupt) →
          p + f = passed + failed + remaining) := by
  intro remaining
  induction remaining with
  | zero =>
    intro idx passed failed ts p f ts' h hlen
    simp only [doLoopGo, Except.ok.injEq, Prod.mk.injEq] at h
    obtain ⟨rfl, rfl, rfl⟩ := h
    exact ⟨hlen, by omega, fun _ => by omega⟩
  | succ n ih =>
    intro idx passed failed ts p f ts' h hlen
    rw [doLoopGo] at h
    split at h
    · simp only [Except.ok.injEq, Prod.mk.injEq] at h
      obtain ⟨rfl, rfl, rfl⟩ := h
      refine ⟨hlen, by omega, ?_⟩
      rintro ⟨hnone, -⟩
      rename_i hintr
      rw [hnone] at hintr
      cases hintr
    · rename_i hnointr
      split at h
      · rename_i t heq
        split at h
        · rename_i hkb
          simp only [Except.ok.injEq, Prod.mk.injEq] at h
          obtain ⟨rfl, rfl, rfl⟩ := h
          refine ⟨hlen, by omega, ?_⟩
          rintro ⟨-, hnkb⟩
          subst hkb
          exact absurd heq (hnkb idx)
        · cases h
      · rename_i ret heq
        split at h
        · cases h
        · rename_i pr heq2
          have hstep := ih (idx + 1) (passed + if pr.1 then 1 else 0)
            (failed + if pr.1 then 0 else 1)
            (if pr.1 then ts ++ [pr.2] else ts) p f ts' h
            (by cases hb : pr.1 <;> simp [hb, hlen])
          obtain ⟨hl, hle, heqc⟩ := hstep
          refine ⟨hl, ?_, ?_⟩
          · cases hb : pr.1 <;> rw [hb] at hle <;> simp at hle <;> omega
          · intro hc
            have hceq := heqc hc
            cases hb : pr.1 <;> rw [hb] at hceq <;> simp at hceq <;> omega

/-- Claim C7: whenever `do_loop` returns `(passed, failed, times_list)`,
the number of recorded latencies equals `passed`, the number of processed
attempts (`passed + failed`, the `attempted` of the session) is at most
`count`, and it equals `count` unless a `KeyboardInterrupt` was delivered
(between attempts, or in flight during one). -/
theorem C7_session_invariants (A : Nat → Attempt) (intr : Option Nat)
    (count p f : Nat) (ts : List ℚ)
    (h : do_loop A intr count = .ok (p, f, ts)) :
    ts.length = p ∧ p + f ≤ count ∧
      ((intr = none ∧ ∀ i, tcp_ping (A i).connect (A i).teardown ≠
          Except.error .keyboardInterrupt) → p + f = count) := by
  have hspec := doLoopGo_ok_spec A intr count 0 0 0 [] p f ts h rfl
  simpa using hspec

/-- A schedule of attempts whose probes all succeed after 1 second with a
clean teardown. -/
def attemptsOk : Nat → Attempt := fun _ => ⟨.success 1, ⟨none, none⟩⟩

/-- Instantiation of the claim-C7 theorem: two uninterrupted successful
attempts out of `count = 2`. -/
theorem C7_witness :
    [(1 : ℚ), 1].length = 2 ∧ 2 + 0 ≤ 2 ∧
    (((none : Option Nat) = none ∧ ∀ i, tcp_ping (attemptsOk i).connect
        (attemptsOk i).teardown ≠ Except.error .keyboardInterrupt) →
      2 + 0 = 2) :=
  C7_session_invariants attemptsOk none 2 2 0 [1, 1] rfl

lemma pyRound_nearest (q : ℚ) (hq : 0 ≤ q) :
    |((pyRound q : ℤ) : ℚ) - q| ≤ 1/2 := by
  rw [pyRound, if_pos hq, abs_le]
  constructor
  · have hfl := Int.lt_floor_add_one (q + 1/2)
    push_cast at hfl ⊢
    linarith
  · have hfl := Int.floor_le (q + 1/2)
    push_cast at hfl ⊢
    linarith

/-- The claim-C4 statement is false at `attempted = 0`: `footer` with zero
attempts raises `ZeroDivisionError` from `100.0 * failed / total`. -/
theorem C4_counterexample_zero_attempts_raises :
    footer 0 0 [] 0 = Except.error ExcType.zeroDivisionError := rfl

/-- Claim C4 amended: whenever `footer` returns, the failure percentage is
`100 * failed / attempted` rounded to a nearest integer (half away from
zero); but the division is not guarded — with `attempted = 0` `footer`
raises `ZeroDivisionError`. -/
theorem C4_footer_percent_rounded_but_unguarded :
    (∀ (passed failed : Nat) (times : List ℚ) (tt : ℚ) (d : FooterData),
      footer passed failed times tt = .ok d →
      |((d.percent : ℤ) : ℚ) -
        100 * (failed : ℚ) / ((passed : ℚ) + (failed : ℚ))| ≤ 1/2) ∧
    ∀ (times : List ℚ) (tt : ℚ),
      footer 0 0 times tt = Except.error ExcType.zeroDivisionError := by
  constructor
  · intro passed failed times tt d h
    unfold footer at h
    split at h
    · cases h
    · rename_i htot
      split at h
      · cases h
      · rename_i q heq
        injection h with h'
        have hcast : (((passed + failed : ℕ) : ℚ)) =
            (passed : ℚ) + (failed : ℚ) := by push_cast; ring
        rw [← h']
        show |((pyRound (100 * (failed : ℚ) /
          ((passed + failed : ℕ) : ℚ)) : ℤ) : ℚ) -
          100 * (failed : ℚ) / ((passed : ℚ) + (failed : ℚ))| ≤ 1/2
        rw [hcast]
        refine pyRound_nearest _ ?_
        positivity
  · intro times tt
    rfl

/-- Instantiation of the claim-C4 theorems: one success and one failure
out of two attempts yields a 50% failure rate, and zero attempts raise. -/
theorem C4_witness :
    |(((⟨2, 1, 50, 0, 2000, 2000, 2000, 0⟩ : FooterData).percent : ℤ) : ℚ) -
      100 * ((1 : ℕ) : ℚ) / (((1 : ℕ) : ℚ) + ((1 : ℕ) : ℚ))| ≤ 1/2 ∧
    footer 0 0 [] 0 = Except.error ExcType.zeroDivisionError := by
  constructor
  · refine C4_footer_percent_rounded_but_unguarded.1 1 1 [2] 0 _ ?_
    unfold footer
    norm_num [statistics, mean, pyRound, List.foldl]
  · exact C4_footer_percent_rounded_but_unguarded.2 [] 0

/-- A resolution environment for a hostname whose forward DNS lookup
fails with `socket.gaierror`. -/
def envNoDns : ResolveEnv := ⟨false, false, .ok "", .error .gaierror⟩

/-- A resolution environment for a numeric-only run against an IPv4
literal (no DNS call is made). -/
def envLocal : ResolveEnv := ⟨true, true, .ok "127.0.0.1", .ok "127.0.0.1"⟩

/-- A schedule of attempts whose probes all fail with `socket.timeout`
after 1 second, with a clean teardown: the one per-probe failure kind the
Python 2 source catches and counts without crashing. -/
def attemptsTimeout : Nat → Attempt :=
  fun _ => ⟨.raised .socketTimeout 1, ⟨none, none⟩⟩

/-- The claim-C6 statement is false on the code: a failing forward lookup
raises `socket.gaierror` from `header(args)` before `main`'s `try` block,
so `main` ends by an uncaught exception, not by returning `9`. -/
theorem C6_counterexample_resolution_failure_not_exit_9 :
    main "nonexistent.host" envNoDns attemptsOk none 5 0 =
      Except.error ExcType.gaierror ∧
    main "nonexistent.host" envNoDns attemptsOk none 5 0 ≠
      Except.ok 9 :=
  ⟨rfl, fun hc => Except.noConfusion hc⟩

/-- Claim C6 amended: a resolution failure is fatal and aborts the session
before any probing — `main`'s result does not depend on the probe
schedule — but the session terminates by the uncaught `gaierror`
(interpreter-default exit), not with exit code 9. -/
theorem C6_resolution_failure_aborts_uncaught (host : String)
    (env : ResolveEnv) (attempts : Nat → Attempt) (intr : Option Nat)
    (count : Nat) (tw : ℚ) (h1 : env.hostIsIPv4 = false)
    (h2 : env.forwardLookup = Except.error ExcType.gaierror) :
    main host env attempts intr count tw = Except.error ExcType.gaierror := by
  simp [main, get_hostname_ipaddr, h1, h2]

/-- Instantiation of the claim-C6 amended theorem on `envNoDns`, with an
arbitrary probe schedule and interruption point. -/
theorem C6_witness :
    envNoDns.hostIsIPv4 = false ∧
    envNoDns.forwardLookup = Except.error ExcType.gaierror ∧
    main "h" envNoDns attemptsOk (some 3) 7 1 =
      Except.error ExcType.gaierror :=
  ⟨rfl, rfl,
    C6_resolution_failure_aborts_uncaught "h" envNoDns attemptsOk
      (some 3) 7 1 rfl rfl⟩

/-- Claim C5: interruption with nothing collected is not a clean exit-0
path on the code.  Interrupted before any attempt, `footer` raises
`ZeroDivisionError`; interrupted after two timed-out attempts and no
success, `statistics` of the empty latency list raises `ValueError`; both
escape `main` uncaught (no report, no exit code 0).  Interruption after
successful attempts does follow the claimed path and returns 0. -/
theorem C5_interruption_with_no_success_crashes :
    main "127.0.0.1" envLocal attemptsTimeout (some 0) 5 0 =
      Except.error ExcType.zeroDivisionError ∧
    main "127.0.0.1" envLocal attemptsTimeout (some 2) 5 0 =
      Except.error ExcType.valueError ∧
    main "127.0.0.1" envLocal attemptsOk (some 2) 5 0 = Except.ok 0 :=
  ⟨rfl, rfl, rfl⟩

end Tcpping
